import Mathlib

/-!
# Verification of the MAID SMART health monitor

A shallow embedding of `src/maid-smart-mon.py` (class `MAIDSmartMonitor`).
External effects are made explicit:

* each `subprocess.run` invocation of `smartctl` is represented by a
  `ProcOutcome` (completed with exit status and stdout, timed out, or raised
  another exception) supplied by the environment;
* the parsed JSON of the full attribute query is represented by `SmartData`,
  modelling exactly the keys the program consults
  (`ata_smart_attributes.table` records with `id`, `raw.value`, `value`,
  `thresh`, `worst`, `flags`), with `Option` marking absent keys, plus a
  count of other, unconsulted top-level keys (so that Python dict truthiness
  of the parsed object is representable);
* the SQLite tables are association lists / result lists, and a write to the
  database either succeeds or raises, as dictated by boolean flags of the
  per-device environment (`DeviceEnv`);
* `datetime.now()` is an abstract clock value supplied by the caller.

Machine integers do not overflow in the Python source, so numeric fields are
`Int`. The Python substring test `needle in hay` is `strContains`; the regex
substitution `re.sub(r"d+$", "", s)` (with a backslash before the d), which
removes a trailing run of decimal digits, is `stripTrailingDigits` (device
names are ASCII, where Python digit matching and `Char.isDigit` agree).
-/

/-- The Python substring containment test `needle in hay` on strings. -/
def strContains (hay needle : String) : Bool :=
  decide (List.IsInfix needle.data hay.data)

/-- Outcome of one `subprocess.run([... smartctl ...])` call:
either the process completed (with exit status and captured stdout),
or `subprocess.TimeoutExpired` was raised, or some other exception. -/
inductive ProcOutcome where
  | completed (returncode : Int) (stdout : String)
  | timedOut
  | raised
deriving DecidableEq, Repr

/-- One record of the `ata_smart_attributes.table` array of the smartctl JSON
output, restricted to the keys `parse_smart_attributes` consults.
`none` stands for an absent key; `raw` is the nested `raw` object
(`some none` means a `raw` object without a `value` key), and `flags`
holds the `str()` rendering of the `flags` value when the key is present. -/
structure AttrRecord where
  id : Option Int
  raw : Option (Option Int)
  value : Option Int
  thresh : Option Int
  worst : Option Int
  flags : Option String
deriving DecidableEq, Repr

/-- The `ata_smart_attributes` object: its `table` key may be absent. -/
structure AtaSmartAttributes where
  table : Option (List AttrRecord)
deriving DecidableEq, Repr

/-- The parsed JSON object returned by `smartctl -A --json`, restricted to the
keys the program consults. `other_keys` counts the remaining top-level keys,
so `d` is truthy as a Python dict iff the consulted key is present or
`other_keys` is non-zero. -/
structure SmartData where
  ata_smart_attributes : Option AtaSmartAttributes
  other_keys : Nat
deriving DecidableEq, Repr

/-- Python dict truthiness of the parsed smartctl JSON object. -/
def SmartData.truthy (d : SmartData) : Bool :=
  d.ata_smart_attributes.isSome || d.other_keys != 0

/-- Outcome of the full attribute query `smartctl -A --json device`:
when the process completed, `parsed` is the result of `json.loads` on its
stdout (`none` when that raises `json.JSONDecodeError`). -/
inductive AttrQueryOutcome where
  | completed (returncode : Int) (parsed : Option SmartData) (stderr : String)
  | timedOut
  | raised
deriving DecidableEq, Repr

/-- The `TARGET_ATTRIBUTES` dict: attribute id to attribute name. -/
def TARGET_ATTRIBUTES : List (Int × String) :=
  [(1, "Raw_Read_Error_Rate"),
   (3, "Spin_Up_Time"),
   (4, "Start_Stop_Count"),
   (5, "Reallocated_Sector_Ct"),
   (7, "Seek_Error_Rate"),
   (9, "Power_On_Hours"),
   (12, "Power_Cycle_Count"),
   (187, "Reported_Uncorrectable_Errors"),
   (188, "Command_Timeout"),
   (190, "Airflow_Temperature_Cel"),
   (191, "G_Sense_Error_Rate"),
   (192, "Power_Off_Retract_Count"),
   (193, "Load_Cycle_Count"),
   (194, "Temperature_Celsius"),
   (196, "Reallocation_Event_Count"),
   (197, "Current_Pending_Sector"),
   (198, "Offline_Uncorrectable"),
   (199, "UDMA_CRC_Error_Count"),
   (222, "Loaded_Hours"),
   (240, "Head_Flying_Hours"),
   (241, "Total_LBAs_Written"),
   (242, "Total_LBAs_Read")]

/-- A row appended to the `attributes` list by `parse_smart_attributes`,
i.e. one in-memory SMART attribute reading. -/
structure AttrReading where
  device : String
  attribute_id : Int
  attribute_name : String
  raw_value : Int
  normalized_value : Int
  threshold : Int
  worst_value : Int
  flags : String
deriving DecidableEq, Repr

/-- The loop body of `parse_smart_attributes`: a table record contributes a
reading exactly when its `id` key is present and is a `TARGET_ATTRIBUTES`
key; absent value fields take the Python `.get` defaults (0, and the
rendering of the empty dict for `flags`). -/
def readingOfRecord (device : String) (attr : AttrRecord) : Option AttrReading :=
  match attr.id with
  | none => none
  | some attr_id =>
    match TARGET_ATTRIBUTES.lookup attr_id with
    | none => none
    | some name =>
      some { device := device
             attribute_id := attr_id
             attribute_name := name
             raw_value := (attr.raw.getD none).getD 0
             normalized_value := attr.value.getD 0
             threshold := attr.thresh.getD 0
             worst_value := attr.worst.getD 0
             flags := attr.flags.getD "\x7b\x7d" }

/-- `parse_smart_attributes(smart_data, device)`: returns `[]` when the
`ata_smart_attributes` key is absent, else folds the loop body over the
`table` array (default `[]`). -/
def parse_smart_attributes (smart_data : SmartData) (device : String) :
    List AttrReading :=
  match smart_data.ata_smart_attributes with
  | none => []
  | some ata => (ata.table.getD []).filterMap (readingOfRecord device)

/-- `collect_smart_data(device)`. First runs the standby probe
`smartctl --nocheck=standby -n standby device`; if its stdout contains
`STANDBY` the function returns the empty dict. Otherwise it runs the full
query `smartctl -A --json device` and parses its stdout on exit status 0.
`TimeoutExpired`, `JSONDecodeError` and any other exception are caught and
yield the empty dict. Result: the returned dict (`none` is the literal `{}`
return) paired with whether the full attribute query was issued. -/
def collect_smart_data (standby_probe : ProcOutcome)
    (attr_query : AttrQueryOutcome) : Option SmartData × Bool :=
  match standby_probe with
  | ProcOutcome.timedOut => (none, false)
  | ProcOutcome.raised => (none, false)
  | ProcOutcome.completed _ standby_stdout =>
    if strContains standby_stdout "STANDBY" then (none, false)
    else
      match attr_query with
      | AttrQueryOutcome.timedOut => (none, true)
      | AttrQueryOutcome.raised => (none, true)
      | AttrQueryOutcome.completed rc parsed _ =>
        if rc == 0 then
          match parsed with
          | some data => (some data, true)
          | none => (none, true)
        else (none, true)

/-- `check_smart_support(device)`: true iff the identity probe completed with
exit status 0 and its stdout contains `SMART support is: Enabled`; timeouts
and exceptions are caught and yield false. -/
def check_smart_support (probe : ProcOutcome) : Bool :=
  match probe with
  | ProcOutcome.completed rc stdout =>
    if rc == 0 then strContains stdout "SMART support is: Enabled" else false
  | ProcOutcome.timedOut => false
  | ProcOutcome.raised => false

/-- The line scan of `get_device_info`: fold over the stdout lines, updating
the serial from the text after `Serial Number:` and the model from the text
after the first `:` on a `Device Model:` / `Model Number:` line. -/
def deviceInfoScan (lines : List String) :
    Option String × Option String :=
  lines.foldl
    (fun sm line =>
      if strContains line "Serial Number:" then
        (some ((line.splitOn "Serial Number:").getD 1 "").trim, sm.2)
      else if strContains line "Device Model:" || strContains line "Model Number:" then
        (sm.1, some ((line.splitOn ":").getD 1 "").trim)
      else sm)
    (none, none)

/-- `get_device_info(device)`: on a completed probe with exit status 0, scan
the stdout lines for serial and model; otherwise `(None, None)`. -/
def get_device_info (probe : ProcOutcome) : Option String × Option String :=
  match probe with
  | ProcOutcome.completed rc stdout =>
    if rc == 0 then deviceInfoScan (stdout.splitOn "\n") else (none, none)
  | ProcOutcome.timedOut => (none, none)
  | ProcOutcome.raised => (none, none)

/-- The argument tuple of one `create_alert` call:
(device, attribute_name, alert_type, message). -/
structure AlertCall where
  device : String
  attribute_name : String
  alert_type : String
  message : String
deriving DecidableEq, Repr

/-- The critical health indicator ids of `check_health_thresholds`. -/
def critical_attrs : List Int := [5, 187, 196, 197, 198]

/-- The loop body of `check_health_thresholds` for one attribute reading:
the three independent rules, in source order. -/
def check_attr_alerts (attr : AttrReading) : List AlertCall :=
  let device := attr.device
  let name := attr.attribute_name
  let raw_value := attr.raw_value
  let normalized_value := attr.normalized_value
  let threshold := attr.threshold
  (if threshold > 0 ∧ normalized_value ≤ threshold then
    [{ device := device, attribute_name := name,
       alert_type := "THRESHOLD_VIOLATION",
       message := s!"Value {normalized_value} below threshold {threshold}" }]
   else []) ++
  (if attr.attribute_id ∈ critical_attrs ∧ raw_value > 0 then
    [{ device := device, attribute_name := name,
       alert_type := "CRITICAL_VALUE",
       message := s!"Non-zero critical value: {raw_value}" }]
   else []) ++
  (if attr.attribute_id ∈ ([190, 194] : List Int) ∧ raw_value > 60 then
    [{ device := device, attribute_name := name,
       alert_type := "HIGH_TEMPERATURE",
       message := s!"High temperature: {raw_value}°C" }]
   else [])

/-- `check_health_thresholds(attributes)`: the sequence of `create_alert`
calls it makes, in order. -/
def check_health_thresholds (attributes : List AttrReading) : List AlertCall :=
  (attributes.map check_attr_alerts).flatten

/-- A row of the `health_alerts` table (the `resolved` column defaults to
false and is never written by this program). -/
structure Alert where
  device : String
  attribute_name : String
  alert_type : String
  message : String
  timestamp : Nat
deriving DecidableEq, Repr

/-- `create_alert(device, attribute, alert_type, message)`: inserts a row
stamped with `datetime.now()`, supplied here as `now`. -/
def create_alert (now : Nat) (c : AlertCall) : Alert :=
  { device := c.device, attribute_name := c.attribute_name,
    alert_type := c.alert_type, message := c.message, timestamp := now }

/-- The `health_alerts` rows produced by a run of the evaluator: the k-th
`create_alert` call is stamped with `clock k`. -/
def store_alerts (clock : Nat → Nat) (calls : List AlertCall) : List Alert :=
  calls.enum.map (fun p => create_alert (clock p.1) p.2)

/-- An alert with its timestamp erased. -/
def alert_core (a : Alert) : AlertCall :=
  { device := a.device, attribute_name := a.attribute_name,
    alert_type := a.alert_type, message := a.message }

/-- The Python test `s.startswith(pre)` on strings. -/
def strStartsWith (s pre : String) : Bool :=
  pre.data.isPrefixOf s.data

/-- The substitution `re.sub` of a trailing digit run with the empty string,
as applied to a device name by `get_mounted_drives`. -/
def stripTrailingDigits (s : String) : String :=
  String.mk ((s.data.reverse.dropWhile (fun c => c.isDigit)).reverse)

/-- `get_mounted_drives()`: map the device name of each mounted partition to its
parent device by stripping the trailing digit run, keep it when it is new and
starts with `/dev/sd`, preserving first-seen order. The input list is the
`device` field of each `psutil.disk_partitions()` entry, in order. -/
def get_mounted_drives (partitions : List String) : List String :=
  partitions.foldl
    (fun mounted_drives p =>
      let device := stripTrailingDigits p
      if device ∉ mounted_drives ∧ strStartsWith device "/dev/sd" then
        mounted_drives ++ [device]
      else mounted_drives)
    []

/-- Order-preserving first-seen deduplication of a list of device names. -/
def dedupFirstSeen (l : List String) : List String :=
  l.foldl (fun acc d => if d ∈ acc then acc else acc ++ [d]) []

/-- Modelled from the spec (for comparison with `get_mounted_drives`): the
`list_active_devices` contract of the claim — map the device of each mounted partition to its parent whole-disk device by stripping the trailing
partition-number suffix, deduplicated preserving first-seen order, containing
every device backing a currently mounted filesystem and no others. -/
def list_active_devices_spec (partitions : List String) : List String :=
  dedupFirstSeen (partitions.map stripTrailingDigits)

/-- A row of the `device_status` table. The `INSERT OR REPLACE` statement of
`update_device_status` names neither `mount_point` nor `spin_up_count`, so a
replaced row gets their column defaults (`NULL` and `0`). -/
structure DeviceStatusRow where
  serial_number : Option String
  model : Option String
  last_seen : Nat
  is_mounted : Bool
  mount_point : Option String
  smart_enabled : Bool
  last_smart_check : Nat
  spin_up_count : Int
deriving DecidableEq, Repr

/-- SQLite `INSERT OR REPLACE` keyed on the `device` primary key: the
conflicting row is deleted and the new row inserted. -/
def upsert_row (db : List (String × DeviceStatusRow)) (device : String)
    (row : DeviceStatusRow) : List (String × DeviceStatusRow) :=
  (db.filter (fun p => p.1 != device)) ++ [(device, row)]

/-- `update_device_status(device, serial, model, is_mounted, smart_enabled)`:
upserts the row; both datetime columns are `datetime.now()`, supplied as
`now`. Unnamed columns take their defaults. -/
def update_device_status (db : List (String × DeviceStatusRow))
    (device : String) (serial model : Option String) (now : Nat)
    (is_mounted smart_enabled : Bool) : List (String × DeviceStatusRow) :=
  upsert_row db device
    { serial_number := serial, model := model, last_seen := now,
      is_mounted := is_mounted, mount_point := none,
      smart_enabled := smart_enabled, last_smart_check := now,
      spin_up_count := 0 }

/-- The argument tuple of one `update_device_status` call. -/
structure StatusUpdateOp where
  device : String
  serial : Option String
  model : Option String
  now : Nat
  is_mounted : Bool
  smart_enabled : Bool
deriving DecidableEq, Repr

/-- The `device_status` table state reached from the freshly initialized
(empty) table by a sequence of `update_device_status` calls — the only
operation of the program that writes this table. -/
def apply_status_ops (ops : List StatusUpdateOp) :
    List (String × DeviceStatusRow) :=
  ops.foldl
    (fun db op =>
      update_device_status db op.device op.serial op.model op.now
        op.is_mounted op.smart_enabled)
    []

/-- The external world of one device during one cycle: the outcomes of the
four smartctl invocations the program may make for it, and whether each kind
of database write succeeds or raises an sqlite3 error. -/
structure DeviceEnv where
  info_probe : ProcOutcome
  support_probe : ProcOutcome
  standby_probe : ProcOutcome
  attr_query : AttrQueryOutcome
  status_write_ok : Bool
  data_write_ok : Bool
  alert_write_ok : Bool
deriving DecidableEq, Repr

/-- An exception escaping a per-device step of the cycle. With every probe
wrapped in its own handler inside `get_device_info`, `check_smart_support`
and `collect_smart_data`, only the database writes (`update_device_status`,
`store_smart_data`, `create_alert`) can raise up to the cycle loop. -/
inductive DevError where
  | persist (table : String)
deriving DecidableEq, Repr

/-- What happened for one device in one cycle, when no exception escaped. -/
structure DeviceTrace where
  serial : Option String
  model : Option String
  smart_enabled : Bool
  attr_query_issued : Bool
  readings : List AttrReading
  alert_calls : List AlertCall
deriving DecidableEq, Repr

/-- The body of the per-device loop of `run_monitoring_cycle`, before its
generic exception handler: identity probe, capability probe, status upsert
(which may raise), early exit when SMART is unsupported, collection, parse,
store (which may raise when there are readings) and evaluation (whose
`create_alert` inserts may raise when there are alerts). -/
def process_device (env : DeviceEnv) (device : String) :
    Except DevError DeviceTrace :=
  let info := get_device_info env.info_probe
  let smart_enabled := check_smart_support env.support_probe
  if env.status_write_ok = false then
    Except.error (DevError.persist "device_status")
  else if smart_enabled = false then
    Except.ok { serial := info.1, model := info.2, smart_enabled := false,
                attr_query_issued := false, readings := [], alert_calls := [] }
  else
    let collected := collect_smart_data env.standby_probe env.attr_query
    match collected.1 with
    | none =>
      Except.ok { serial := info.1, model := info.2, smart_enabled := true,
                  attr_query_issued := collected.2, readings := [],
                  alert_calls := [] }
    | some data =>
      if data.truthy then
        let attributes := parse_smart_attributes data device
        if attributes.isEmpty then
          Except.ok { serial := info.1, model := info.2, smart_enabled := true,
                      attr_query_issued := collected.2, readings := [],
                      alert_calls := [] }
        else if env.data_write_ok = false then
          Except.error (DevError.persist "smart_data")
        else
          let calls := check_health_thresholds attributes
          if calls.isEmpty = false ∧ env.alert_write_ok = false then
            Except.error (DevError.persist "health_alerts")
          else
            Except.ok { serial := info.1, model := info.2,
                        smart_enabled := true,
                        attr_query_issued := collected.2,
                        readings := attributes, alert_calls := calls }
      else
        Except.ok { serial := info.1, model := info.2, smart_enabled := true,
                    attr_query_issued := collected.2, readings := [],
                    alert_calls := [] }

/-- `run_monitoring_cycle()`: for each mounted device in discovery order, run
the per-device body under the generic `except Exception` handler, which turns
an escaped exception into a log entry and continues with the next device.
The result records, per device in order, its processing outcome. -/
def run_monitoring_cycle (envs : String → DeviceEnv)
    (partitions : List String) :
    List (String × Except DevError DeviceTrace) :=
  (get_mounted_drives partitions).foldl
    (fun acc device => acc ++ [(device, process_device (envs device) device)])
    []

/-! ## Helper lemmas -/

theorem foldl_snoc_eq_map {α β : Type} (f : α → β) (l : List α)
    (acc : List β) :
    l.foldl (fun a x => a ++ [f x]) acc = acc ++ l.map f := by
  induction l generalizing acc with
  | nil => simp
  | cons x t ih => simp [ih]

theorem run_monitoring_cycle_eq_map (envs : String → DeviceEnv)
    (partitions : List String) :
    run_monitoring_cycle envs partitions
      = (get_mounted_drives partitions).map
          (fun device => (device, process_device (envs device) device)) := by
  unfold run_monitoring_cycle
  rw [foldl_snoc_eq_map (fun device => (device, process_device (envs device) device))
      (get_mounted_drives partitions) []]
  simp

theorem get_mounted_drives_fold_eq (l : List String) (acc : List String) :
    l.foldl
      (fun mounted_drives p =>
        let device := stripTrailingDigits p
        if device ∉ mounted_drives ∧ strStartsWith device "/dev/sd" then
          mounted_drives ++ [device]
        else mounted_drives)
      acc
    = ((l.map stripTrailingDigits).filter
        (fun d => strStartsWith d "/dev/sd")).foldl
        (fun a d => if d ∈ a then a else a ++ [d]) acc := by
  induction l generalizing acc with
  | nil => rfl
  | cons p t ih =>
    simp only [List.foldl_cons, List.map_cons, List.filter_cons]
    by_cases hp : strStartsWith (stripTrailingDigits p) "/dev/sd"
    · rw [if_pos hp]
      simp only [List.foldl_cons]
      by_cases hm : stripTrailingDigits p ∈ acc
      · rw [if_neg (by simp [hm]), if_pos hm]
        exact ih acc
      · rw [if_pos ⟨hm, hp⟩, if_neg hm]
        exact ih (acc ++ [stripTrailingDigits p])
    · rw [if_neg (by simp [hp]), if_neg (by simpa using hp)]
      exact ih acc

/-! ## Claims -/

/-- C1: if the output of the standby probe indicates the device is in standby
(its stdout contains `STANDBY`), `collect_smart_data` returns the empty
result and the full attribute query is never issued for that device in that
cycle. -/
theorem C1_standby_skips_attr_query (standby_probe : ProcOutcome)
    (attr_query : AttrQueryOutcome) (rc : Int) (stdout : String)
    (hp : standby_probe = ProcOutcome.completed rc stdout)
    (hs : strContains stdout "STANDBY" = true) :
    collect_smart_data standby_probe attr_query = (none, false) := by
  subst hp
  simp [collect_smart_data, hs]

/-- Witness for C1: a device whose standby probe reports `STANDBY` yields the
empty result with no full attribute query, even though a successful full
query response is available. -/
theorem C1_standby_skips_attr_query_witness :
    collect_smart_data
      (ProcOutcome.completed 2 "Device is in STANDBY mode, exit(2)")
      (AttrQueryOutcome.completed 0 (some ⟨some ⟨some []⟩, 1⟩) "")
      = (none, false) :=
  C1_standby_skips_attr_query _
    (AttrQueryOutcome.completed 0 (some ⟨some ⟨some []⟩, 1⟩) "")
    2 "Device is in STANDBY mode, exit(2)" rfl (by decide)

/-- The parsed result of a full attribute query carrying one catalog
attribute (id 5 with raw value 3). -/
def failedProbeSmartData : SmartData :=
  { ata_smart_attributes :=
      some { table := some [{ id := some 5, raw := some (some 3),
                              value := some 100, thresh := some 10,
                              worst := some 100, flags := none }] },
    other_keys := 0 }

/-- C2 (code bug): when the standby probe fails — it completes with a
non-zero exit status and stdout not containing `STANDBY` — the code does not
skip the device: it issues the full attribute query anyway and, if that
succeeds, returns its data, from which the parser produces a reading. The
exit status of the standby probe is never examined. -/
theorem C2_failed_probe_still_collects :
    collect_smart_data
      (ProcOutcome.completed 1 "Smartctl open device failed: No such device")
      (AttrQueryOutcome.completed 0 (some failedProbeSmartData) "")
      = (some failedProbeSmartData, true)
    ∧ (parse_smart_attributes failedProbeSmartData "/dev/sda").length = 1 := by
  decide

/-- C3 counterexample: `/dev/vda1` backs a mounted filesystem and its parent
device is `/dev/vda`, yet `get_mounted_drives` returns the empty list — the
result does not contain every device backing a mounted filesystem, because
devices not starting with `/dev/sd` are dropped. -/
theorem C3_counterexample :
    get_mounted_drives ["/dev/vda1"] = []
    ∧ list_active_devices_spec ["/dev/vda1"] = ["/dev/vda"] := by
  decide

/-- C3 (amended): `get_mounted_drives` maps the device of each mounted partition
to its parent device by stripping the trailing digit run, keeps only those
starting with `/dev/sd`, and deduplicates preserving first-seen order. -/
theorem C3_discovery_characterization (partitions : List String) :
    get_mounted_drives partitions
      = dedupFirstSeen
          ((partitions.map stripTrailingDigits).filter
            (fun d => strStartsWith d "/dev/sd")) := by
  unfold get_mounted_drives dedupFirstSeen
  exact get_mounted_drives_fold_eq partitions []

theorem countP_ite {α : Type} (p : α → Bool) (c : Prop) [Decidable c]
    (l : List α) :
    (if c then l else []).countP p = if c then l.countP p else 0 := by
  split_ifs <;> simp

/-- C4: for every attribute reading, the evaluator fires exactly the rules
whose condition holds, each contributing exactly one alert of its type,
independently of the others. -/
theorem C4_evaluator_rules (r : AttrReading) :
    ((check_health_thresholds [r]).countP
        (fun a => a.alert_type == "THRESHOLD_VIOLATION")
      = if r.threshold > 0 ∧ r.normalized_value ≤ r.threshold then 1 else 0)
    ∧ ((check_health_thresholds [r]).countP
        (fun a => a.alert_type == "CRITICAL_VALUE")
      = if r.attribute_id ∈ ([5, 187, 196, 197, 198] : List Int)
            ∧ r.raw_value > 0 then 1 else 0)
    ∧ ((check_health_thresholds [r]).countP
        (fun a => a.alert_type == "HIGH_TEMPERATURE")
      = if r.attribute_id ∈ ([190, 194] : List Int) ∧ r.raw_value > 60
        then 1 else 0) := by
  unfold check_health_thresholds check_attr_alerts critical_attrs
  refine ⟨?_, ?_, ?_⟩ <;>
    simp [List.countP_append, countP_ite, List.countP_cons]

/-- C5: every reading produced by the parser has an attribute id that is a
key of the `TARGET_ATTRIBUTES` catalog (allow-list invariant). -/
theorem C5_allowlist (d : SmartData) (dev : String) (r : AttrReading)
    (h : r ∈ parse_smart_attributes d dev) :
    (TARGET_ATTRIBUTES.lookup r.attribute_id).isSome = true := by
  obtain ⟨oata, okeys⟩ := d
  cases oata with
  | none => simp [parse_smart_attributes] at h
  | some ata =>
    have h2 : r ∈ (ata.table.getD []).filterMap (readingOfRecord dev) := h
    rcases List.mem_filterMap.mp h2 with ⟨rec, _, hrec⟩
    unfold readingOfRecord at hrec
    split at hrec
    · simp at hrec
    · rename_i attr_id hid
      split at hrec
      · simp at hrec
      · rename_i name hl
        have hr := Option.some.inj hrec
        subst hr
        show (TARGET_ATTRIBUTES.lookup attr_id).isSome = true
        rw [hl]
        rfl

/-- A smartctl JSON result with one temperature record (id 194), used as the
concrete input of the C5 witness. -/
def tempSmartData : SmartData :=
  { ata_smart_attributes :=
      some { table := some [{ id := some 194, raw := some (some 38),
                              value := some 62, thresh := some 0,
                              worst := some 48, flags := none }] },
    other_keys := 2 }

/-- The reading `parse_smart_attributes` produces from `tempSmartData`. -/
def tempReading : AttrReading :=
  { device := "/dev/sda", attribute_id := 194,
    attribute_name := "Temperature_Celsius", raw_value := 38,
    normalized_value := 62, threshold := 0, worst_value := 48,
    flags := "\x7b\x7d" }

/-- Witness for C5: the reading produced from `tempSmartData` has a catalog
attribute id. -/
theorem C5_allowlist_witness :
    (TARGET_ATTRIBUTES.lookup tempReading.attribute_id).isSome = true :=
  C5_allowlist tempSmartData "/dev/sda" tempReading (by decide)

/-- C8: the evaluator is deterministic and idempotent — two runs over the
identical reading set yield the same alert rows up to timestamps, whatever
values the clock supplies at each `create_alert` call. -/
theorem C8_evaluator_idempotent (readings : List AttrReading)
    (clock1 clock2 : Nat → Nat) :
    (store_alerts clock1 (check_health_thresholds readings)).map alert_core
      = (store_alerts clock2 (check_health_thresholds readings)).map
          alert_core := by
  have h : ∀ clock : Nat → Nat, ∀ calls : List AlertCall,
      (store_alerts clock calls).map alert_core = calls := by
    intro clock calls
    unfold store_alerts
    rw [List.map_map]
    have hcomp : alert_core ∘ (fun p : Nat × AlertCall =>
        create_alert (clock p.1) p.2) = Prod.snd := by
      funext p
      rfl
    rw [hcomp, List.enum_map_snd]
  rw [h, h]

/-- C6: an exception or error raised at any per-device step for one device —
a probe timeout caught inside the probe helpers, or an escaped exception
caught by the generic handler of the loop — does not abort processing of the
remaining devices: every subsequent device in discovery order still gets its
own, independent processing result in the outcome of the cycle. -/
theorem C6_per_device_isolation (envs : String → DeviceEnv)
    (partitions : List String) (i j : Nat) (di dj : String) (e : DevError)
    (hi : (get_mounted_drives partitions).get? i = some di)
    (hfail : (envs di).standby_probe = ProcOutcome.timedOut
      ∨ (envs di).support_probe = ProcOutcome.timedOut
      ∨ (envs di).info_probe = ProcOutcome.timedOut
      ∨ (envs di).attr_query = AttrQueryOutcome.timedOut
      ∨ process_device (envs di) di = Except.error e)
    (hij : i < j)
    (hj : (get_mounted_drives partitions).get? j = some dj) :
    (run_monitoring_cycle envs partitions).get? j
      = some (dj, process_device (envs dj) dj) := by
  rw [run_monitoring_cycle_eq_map, List.get?_map, hj]
  rfl

/-- Environment of a device whose every probe times out and whose status
upsert raises an sqlite3 error. -/
def sdaFailEnv : DeviceEnv :=
  { info_probe := ProcOutcome.timedOut,
    support_probe := ProcOutcome.timedOut,
    standby_probe := ProcOutcome.timedOut,
    attr_query := AttrQueryOutcome.timedOut,
    status_write_ok := false, data_write_ok := true, alert_write_ok := true }

/-- A healthy full-query result for the second device: one temperature
record (id 194, raw value 38). -/
def sdbSmartData : SmartData :=
  { ata_smart_attributes :=
      some { table := some [{ id := some 194, raw := some (some 38),
                              value := some 62, thresh := some 0,
                              worst := some 48, flags := none }] },
    other_keys := 1 }

/-- Environment of a healthy second device: SMART enabled, spinning, one
catalog attribute collected, all writes succeed. -/
def sdbOkEnv : DeviceEnv :=
  { info_probe := ProcOutcome.timedOut,
    support_probe := ProcOutcome.completed 0 "SMART support is: Enabled",
    standby_probe := ProcOutcome.completed 0 "Power mode is: ACTIVE or IDLE",
    attr_query := AttrQueryOutcome.completed 0 (some sdbSmartData) "",
    status_write_ok := true, data_write_ok := true, alert_write_ok := true }

/-- Two-device world: `/dev/sda` fails, `/dev/sdb` is healthy. -/
def cexEnvs : String → DeviceEnv :=
  fun d => if d = "/dev/sda" then sdaFailEnv else sdbOkEnv

/-- Witness for C6: with `/dev/sda` timing out on every probe and failing its
status write, `/dev/sdb` is still processed. -/
theorem C6_per_device_isolation_witness :
    (run_monitoring_cycle cexEnvs ["/dev/sda1", "/dev/sdb1"]).get? 1
      = some ("/dev/sdb", process_device (cexEnvs "/dev/sdb") "/dev/sdb") :=
  C6_per_device_isolation cexEnvs ["/dev/sda1", "/dev/sdb1"] 0 1
    "/dev/sda" "/dev/sdb" (DevError.persist "device_status")
    (by decide) (Or.inl (by decide)) (by decide) (by decide)

/-- C7 counterexample: a persistence failure (the status upsert of
`/dev/sda` raises) does not propagate out of the cycle: it is caught by the
per-device handler, recorded for `/dev/sda` alone, and `/dev/sdb` is still
fully processed — its reading is collected in the same cycle. -/
theorem C7_counterexample :
    run_monitoring_cycle cexEnvs ["/dev/sda1", "/dev/sdb1"]
      = [("/dev/sda", Except.error (DevError.persist "device_status")),
         ("/dev/sdb", Except.ok
           { serial := none, model := none, smart_enabled := true,
             attr_query_issued := true,
             readings := [{ device := "/dev/sdb", attribute_id := 194,
                            attribute_name := "Temperature_Celsius",
                            raw_value := 38, normalized_value := 62,
                            threshold := 0, worst_value := 48,
                            flags := "\x7b\x7d" }],
             alert_calls := [] })] := by
  rfl

/-- C7 (amended): a persistence failure — an sqlite3 error raised while
persisting device status, readings, or alerts — IS caught by the per-device
isolation boundary: it is recorded at the granularity of that device and the
cycle still yields an outcome for every mounted device. -/
theorem C7_persistence_failure_isolated (envs : String → DeviceEnv)
    (partitions : List String) (i : Nat) (di : String) (t : String)
    (hi : (get_mounted_drives partitions).get? i = some di)
    (hfail : process_device (envs di) di
      = Except.error (DevError.persist t)) :
    (run_monitoring_cycle envs partitions).get? i
        = some (di, Except.error (DevError.persist t))
      ∧ (run_monitoring_cycle envs partitions).length
        = (get_mounted_drives partitions).length := by
  constructor
  · rw [run_monitoring_cycle_eq_map, List.get?_map, hi]
    simp [hfail]
  · rw [run_monitoring_cycle_eq_map, List.length_map]

/-- Witness for C7 (amended): the failing `/dev/sda` is recorded with its
persistence error and the cycle outcome covers both mounted devices. -/
theorem C7_persistence_failure_isolated_witness :
    (run_monitoring_cycle cexEnvs ["/dev/sda1", "/dev/sdb1"]).get? 0
        = some ("/dev/sda", Except.error (DevError.persist "device_status"))
      ∧ (run_monitoring_cycle cexEnvs ["/dev/sda1", "/dev/sdb1"]).length
        = (get_mounted_drives ["/dev/sda1", "/dev/sdb1"]).length :=
  C7_persistence_failure_isolated cexEnvs ["/dev/sda1", "/dev/sdb1"] 0
    "/dev/sda" "device_status" (by decide) rfl

theorem spin_up_count_inv_aux (ops : List StatusUpdateOp)
    (db : List (String × DeviceStatusRow))
    (hdb : ∀ p ∈ db, p.2.spin_up_count = 0) :
    ∀ p ∈ ops.foldl
      (fun db op =>
        update_device_status db op.device op.serial op.model op.now
          op.is_mounted op.smart_enabled)
      db,
      p.2.spin_up_count = 0 := by
  induction ops generalizing db with
  | nil => simpa using hdb
  | cons op t ih =>
    rw [List.foldl_cons]
    refine ih _ ?_
    intro p hp
    unfold update_device_status upsert_row at hp
    rcases List.mem_append.mp hp with hmem | hmem
    · exact hdb p (List.mem_of_mem_filter hmem)
    · rw [List.mem_singleton.mp hmem]

/-- C9: no component ever increments `spin_up_count` — in every
`device_status` table state reachable by any sequence of
`update_device_status` calls from the freshly initialized table, the
`spin_up_count` of every row is 0 (the upsert names neither `mount_point` nor
`spin_up_count`, so the replaced row takes the column default 0). -/
theorem C9_spin_up_count_never_incremented (ops : List StatusUpdateOp)
    (p : String × DeviceStatusRow) (hp : p ∈ apply_status_ops ops) :
    p.2.spin_up_count = 0 :=
  spin_up_count_inv_aux ops [] (by simp) p hp

/-- A concrete `update_device_status` call. -/
def exStatusOp : StatusUpdateOp :=
  { device := "/dev/sda", serial := some "S123", model := some "ModelX",
    now := 42, is_mounted := true, smart_enabled := true }

/-- The row that call leaves in the table. -/
def exStatusRow : DeviceStatusRow :=
  { serial_number := some "S123", model := some "ModelX", last_seen := 42,
    is_mounted := true, mount_point := none, smart_enabled := true,
    last_smart_check := 42, spin_up_count := 0 }

/-- Witness for C9: the row left by a concrete status update has
`spin_up_count` 0. -/
theorem C9_spin_up_count_never_incremented_witness :
    exStatusRow.spin_up_count = 0 :=
  C9_spin_up_count_never_incremented [exStatusOp] ("/dev/sda", exStatusRow)
    (by decide)

/-- C10: for a retained record (id present and in the catalog), each field
absent from the query output is replaced by 0 in the produced reading —
absent raw value (no `raw` object or no `value` in it), normalized value,
threshold, or worst value each become 0 — so a record with a missing
threshold can never trigger the threshold rule, and one with a missing raw
value can never trigger the critical-value or temperature rules. -/
theorem C10_missing_fields_default_zero (rec : AttrRecord) (i : Int)
    (name dev : String) (hid : rec.id = some i)
    (hcat : TARGET_ATTRIBUTES.lookup i = some name) :
    ∃ r, parse_smart_attributes ⟨some ⟨some [rec]⟩, 0⟩ dev = [r]
      ∧ (rec.raw.getD none = none → r.raw_value = 0)
      ∧ (rec.value = none → r.normalized_value = 0)
      ∧ (rec.thresh = none → r.threshold = 0)
      ∧ (rec.worst = none → r.worst_value = 0)
      ∧ (rec.thresh = none →
          (check_health_thresholds [r]).countP
            (fun a => a.alert_type == "THRESHOLD_VIOLATION") = 0)
      ∧ (rec.raw.getD none = none →
          (check_health_thresholds [r]).countP
              (fun a => a.alert_type == "CRITICAL_VALUE") = 0
            ∧ (check_health_thresholds [r]).countP
              (fun a => a.alert_type == "HIGH_TEMPERATURE") = 0) := by
  refine ⟨{ device := dev, attribute_id := i, attribute_name := name,
            raw_value := (rec.raw.getD none).getD 0,
            normalized_value := rec.value.getD 0,
            threshold := rec.thresh.getD 0,
            worst_value := rec.worst.getD 0,
            flags := rec.flags.getD "\x7b\x7d" },
    ?_, ?_, ?_, ?_, ?_, ?_, ?_⟩
  · show List.filterMap (readingOfRecord dev) [rec] = _
    simp [List.filterMap_cons, readingOfRecord, hid, hcat]
  · intro h
    show (rec.raw.getD none).getD 0 = 0
    rw [h]
    rfl
  · intro h
    show (rec.value).getD 0 = 0
    rw [h]
    rfl
  · intro h
    show (rec.thresh).getD 0 = 0
    rw [h]
    rfl
  · intro h
    show (rec.worst).getD 0 = 0
    rw [h]
    rfl
  · intro h
    simp [check_health_thresholds, check_attr_alerts, countP_ite,
      List.countP_append, List.countP_cons, h]
  · intro h
    constructor <;>
      simp [check_health_thresholds, check_attr_alerts, countP_ite,
        List.countP_append, List.countP_cons, h]

/-- A table record with id 5 and every value field absent. -/
def emptyRecord : AttrRecord :=
  { id := some 5, raw := none, value := none, thresh := none, worst := none,
    flags := none }

/-- Witness for C10: parsing a record with id 5 and no value fields yields a
single all-zero reading that triggers no alert. -/
theorem C10_missing_fields_default_zero_witness :
    ∃ r, parse_smart_attributes ⟨some ⟨some [emptyRecord]⟩, 0⟩ "/dev/sda"
        = [r]
      ∧ (emptyRecord.raw.getD none = none → r.raw_value = 0)
      ∧ (emptyRecord.value = none → r.normalized_value = 0)
      ∧ (emptyRecord.thresh = none → r.threshold = 0)
      ∧ (emptyRecord.worst = none → r.worst_value = 0)
      ∧ (emptyRecord.thresh = none →
          (check_health_thresholds [r]).countP
            (fun a => a.alert_type == "THRESHOLD_VIOLATION") = 0)
      ∧ (emptyRecord.raw.getD none = none →
          (check_health_thresholds [r]).countP
              (fun a => a.alert_type == "CRITICAL_VALUE") = 0
            ∧ (check_health_thresholds [r]).countP
              (fun a => a.alert_type == "HIGH_TEMPERATURE") = 0) :=
  C10_missing_fields_default_zero emptyRecord 5 "Reallocated_Sector_Ct"
    "/dev/sda" rfl (by decide)
